import Mathlib

/-!
Verification of the version-resolution and acquisition pipeline of
rhel-kernel-get.py. The Python functions are shallowly embedded as Lean
definitions; external effects (filesystem, network, external tools) are
passed in explicitly as parameters.
-/

namespace RhelKernelGet

/-! ## Python string primitives

Models of the Python string operations used by the script, operating on the
character list underlying a Lean string. -/

/-- Model of the Python slice `s[:n]` (first `n` characters). -/
def pyTake (s : String) (n : Nat) : String :=
  String.mk (s.data.take n)

/-- Model of the Python slice `s[:-n]` (drop the last `n` characters;
empty result when the string is shorter than `n`). -/
def pyDropSuffix (s : String) (n : Nat) : String :=
  String.mk (s.data.take (s.data.length - n))

/-- Model of the Python `s.endswith(suffix)`. -/
def pyEndsWith (s suffix : String) : Bool :=
  suffix.data.isSuffixOf s.data

/-- Model of the Python `s.split(sep)` for a one-character separator:
splits at every occurrence, keeping empty segments. -/
def pySplitOnChar (c : Char) : List Char → List (List Char)
  | [] => [[]]
  | x :: xs =>
    let r := pySplitOnChar c xs
    if x = c then [] :: r
    else
      match r with
      | h :: t => (x :: h) :: t
      | [] => [[x]]

/-- Python whitespace characters recognised by `str.strip()`. -/
def isPySpace (c : Char) : Bool :=
  c = ' ' || c = '\t' || c = '\n' || c = '\x0d' || c = '\x0b' || c = '\x0c'

/-- Model of the Python `s.strip()`. -/
def pyStrip (s : String) : String :=
  String.mk (((s.data.dropWhile isPySpace).reverse.dropWhile isPySpace).reverse)

/-- Numeric value of a list of decimal digit characters, as Python
`int(...)` computes it on a digit string. -/
def digitsToNat (l : List Char) : Nat :=
  l.foldl (fun n c => 10 * n + (c.toNat - 48)) 0

/-! ## distutils.version.StrictVersion

The script discriminates version strings with `StrictVersion`, whose
anchored pattern is: digits, a dot, digits, an optional dot-digits patch
group, and an optional pre-release group of the letter a or b followed by
digits. A missing patch group parses as patch 0. -/

/-- Parse result of `StrictVersion`: the numeric triple and the optional
pre-release pair. -/
structure SVer where
  version : Nat × Nat × Nat
  prerelease : Option (Char × Nat)
deriving DecidableEq, Repr

/-- Parse the optional trailing pre-release group `([ab](\d+))?` at end of
input: empty input means no pre-release, anything else must be the letter a
or b followed by at least one digit. -/
def parsePrerelease : List Char → Option (Option (Char × Nat))
  | [] => some none
  | c :: rest =>
    if (c = 'a' || c = 'b') && !rest.isEmpty && rest.all (·.isDigit) then
      some (some (c, digitsToNat rest))
    else
      none

/-- Parse the optional patch group followed by the optional pre-release
group, i.e. the regex remainder after major and minor. A missing patch
group yields patch 0, as distutils does. -/
def parsePatchPre (l : List Char) : Option (Nat × Option (Char × Nat)) :=
  match l with
  | '.' :: rest =>
    let s := rest.span (·.isDigit)
    if s.1.isEmpty then none
    else (parsePrerelease s.2).map (fun pre => (digitsToNat s.1, pre))
  | _ => (parsePrerelease l).map (fun pre => (0, pre))

/-- Model of `StrictVersion(s)`: `some` of the parsed value, `none` when
the constructor raises ValueError. -/
def strictVersionParse (s : String) : Option SVer :=
  let l := s.data
  let mj := l.span (·.isDigit)
  if mj.1.isEmpty then none
  else
    match mj.2 with
    | '.' :: rest2 =>
      let mn := rest2.span (·.isDigit)
      if mn.1.isEmpty then none
      else
        (parsePatchPre mn.2).map
          (fun pp => ⟨(digitsToNat mj.1, digitsToNat mn.1, pp.1), pp.2⟩)
    | _ => none

/-- Python lexicographic order on the numeric version triples. -/
def tupLt (a b : Nat × Nat × Nat) : Bool :=
  a.1 < b.1 ||
    (a.1 = b.1 && (a.2.1 < b.2.1 || (a.2.1 = b.2.1 && a.2.2 < b.2.2)))

/-- Python lexicographic order on pre-release pairs. -/
def preLt (a b : Char × Nat) : Bool :=
  a.1 < b.1 || (a.1 = b.1 && a.2 < b.2)

/-- Model of `StrictVersion.__lt__`: compare the numeric triples; on a tie
a pre-release version precedes the plain release, and two pre-releases
compare lexicographically. -/
def svLt (x y : SVer) : Bool :=
  if x.version ≠ y.version then tupLt x.version y.version
  else
    match x.prerelease, y.prerelease with
    | none, none => false
    | some _, none => true
    | none, some _ => false
    | some p, some q => preLt p q

/-! ## Source Locator: upstream kernel.org URL

`get_kernel_tar_from_upstream` builds the kernel.org URL. It re-parses the
version with `StrictVersion` for the era comparison against "3.0" (a parse
failure would raise, hence the Option result), appends `v` plus the first
three characters of the version string and a slash for versions below 3.0,
or `v` plus the first character and `.x/` otherwise, then the tarball name
`linux-<version>.tar.xz`. -/

/-- `StrictVersion("3.0")`, the era boundary constant. -/
def sv30 : SVer := ⟨(3, 0, 0), none⟩

/-- URL built by `get_kernel_tar_from_upstream`, together with the local
tarball name it downloads to; `none` when `StrictVersion(version)` raises. -/
def get_kernel_tar_from_upstream_url (version : String) : Option (String × String) :=
  match strictVersionParse version with
  | none => none
  | some sv =>
    let url := "https://www.kernel.org/pub/linux/kernel/"
    let url :=
      if svLt sv sv30 then url ++ "v" ++ pyTake version 3 ++ "/"
      else url ++ "v" ++ pyTake version 1 ++ ".x/"
    let tarname := "linux-" ++ version ++ ".tar.xz"
    some (tarname, url ++ tarname)

/-! ## Package Extractor: SRPM to tarball

`get_kernel_from_srpm` downloads the SRPM, pipes it through rpm2cpio and
cpio (external tools depositing files in the working directory) and then
returns `linux-<version>.tar.xz` if that file exists, else
`linux-<version>.tar.bz2`. The on-disk outcome of the cpio stage is passed
in as the `isFile` predicate. -/

/-- Tarball name returned by `get_kernel_from_srpm` after the extraction
stages, given which files exist on disk. -/
def get_kernel_from_srpm_tarname (version : String) (isFile : String → Bool) : String :=
  let tarname := "linux-" ++ version ++ ".tar.xz"
  if !(isFile tarname) then "linux-" ++ version ++ ".tar.bz2" else tarname

/-! ## Source Locator: Brew URL

`get_kernel_tar_from_brew` unpacks `version.split("-")` into exactly two
names (any other arity raises ValueError, modelled as `none`) and composes
the Brew package URL. -/

/-- SRPM name and URL built by `get_kernel_tar_from_brew`. -/
def get_kernel_tar_from_brew_url (version : String) : Option (String × String) :=
  match pySplitOnChar '-' version.data with
  | [ver, release] =>
    let url := "http://download.eng.bos.redhat.com/brewroot/packages/kernel/"
    let url := url ++ String.mk ver ++ "/" ++ String.mk release ++ "/src/"
    let rpmname := "kernel-" ++ version ++ ".src.rpm"
    some (rpmname, url ++ rpmname)
  | _ => none

/-! ## Source Locator: CentOS vault URL -/

/-- The static `centos_kernel_map` table of the script. -/
def centos_kernel_map : List (String × String) :=
  [("3.10.0-123.el7", "7.0.1406"),
   ("3.10.0-229.el7", "7.1.1503"),
   ("3.10.0-327.el7", "7.2.1511"),
   ("3.10.0-514.el7", "7.3.1611"),
   ("3.10.0-693.el7", "7.4.1708"),
   ("3.10.0-862.el7", "7.5.1804"),
   ("3.10.0-957.el7", "7.6.1810"),
   ("3.10.0-1062.el7", "7.7.1908"),
   ("3.10.0-1127.el7", "7.8.2003"),
   ("4.18.0-80.el8", "8.0.1905"),
   ("4.18.0-147.el8", "8.1.1911"),
   ("4.18.0-193.el8", "8.2.2004"),
   ("4.18.0-240.el8", "8.3.2011"),
   ("4.18.0-305.el8", "8.4.2105"),
   ("4.18.0-348.el8", "8.5.2111")]

/-- SRPM name and URL built by `get_kernel_tar_from_centos`; `none` when
the dictionary lookup `centos_kernel_map[version]` raises KeyError. -/
def get_kernel_tar_from_centos_url (version : String) : Option (String × String) :=
  match centos_kernel_map.lookup version with
  | none => none
  | some rel =>
    let url := "http://vault.centos.org/"
    let url := url ++ rel
    let url := url ++ (if pyEndsWith version ".el8" then "/BaseOS" else "/os")
    let url := url ++ "/Source/SPackages/"
    let rpmname := "kernel-" ++ version ++ ".src.rpm"
    some (rpmname, url ++ rpmname)

/-! ## Package Extractor: tarball extraction

`extract_tar` dispatches on the `.tar.xz` suffix: matching names use the
xz tar flags and drop the last 7 characters for the directory name, all
other names use the bzip2 flags and drop the last 8 characters. The
external `tar` call either succeeds (flag `tarOk`) or raises, aborting
before the archive is removed. -/

/-- Model of `os.path.abspath(name)` for a relative `name` under the
current working directory `cwd`. -/
def abspath (cwd name : String) : String :=
  cwd ++ "/" ++ name

/-- Observable outcome of `extract_tar`: the tar flags passed to the
external tool, whether the archive file was removed, and the returned
directory path (`Except.error` when the external tool raised). -/
structure TarResult where
  tarOpts : String
  removedArchive : Bool
  result : Except Unit String
deriving Repr

/-- Model of `extract_tar` run in directory `cwd` with the external tar
call succeeding iff `tarOk`. -/
def extract_tar (cwd tarname : String) (tarOk : Bool) : TarResult :=
  let p :=
    if pyEndsWith tarname ".tar.xz" then ("-xJf", pyDropSuffix tarname 7)
    else ("-xjf", pyDropSuffix tarname 8)
  if tarOk then
    { tarOpts := p.1, removedArchive := true, result := Except.ok (abspath cwd p.2) }
  else
    { tarOpts := p.1, removedArchive := false, result := Except.error () }

/-! ## KABI Extractor

`get_kabi_file` first short-circuits on a pre-existing whitelist file, then
scans an ordered list of candidate companion-archive names; when one
exists, it creates the `kabi` temporary directory, extracts the archive
there, determines the inner directory (the conventional `kabi-current` or
the `KABI_CURRENT=` value of `kernel.spec`), and copies the first matching
candidate filename out. The final `return kabi_file` reads a variable that
was only assigned if a candidate was found: if none was, Python raises
UnboundLocalError. The temporary directory is removed by a plain statement
before that return, not by a finally block. -/

/-- Error outcomes of `get_kabi_file`: the external tar call raised,
`kernel.spec` could not be opened, or the final `return kabi_file` hit an
unassigned local variable. -/
inductive KabiErr where
  | tarFailed
  | specMissing
  | unboundLocal
deriving DecidableEq, Repr

/-- Filesystem and external-tool environment of one `get_kabi_file` run. -/
structure KabiFS where
  /-- Names for which `os.path.isfile` holds in the working directory. -/
  files : List String
  /-- Whether the external `tar -xjf` call succeeds. -/
  tarOk : Bool
  /-- Whether the extracted archive holds a `kabi-current` directory. -/
  kabiCurrentDir : Bool
  /-- Lines of `kernel.spec` in the working directory, `none` when the
  file is absent so that opening it raises. -/
  kernelSpec : Option (List String)
  /-- Relative paths for which `os.path.isfile` holds inside the extracted
  `kabi` directory. -/
  innerFiles : List String
deriving Repr

/-- Observable outcome of `get_kabi_file`: the returned value (or the
exception that escaped), whether the `kabi` temporary directory was
created, and whether it was removed again. -/
structure KabiOutcome where
  result : Except KabiErr (Option String)
  tmpCreated : Bool
  tmpCleaned : Bool
deriving Repr

/-- The ordered candidate companion-archive names of `get_kabi_file`:
stablelists and whitelists names with the version minus its last four
characters, the plain whitelists name, and, for hyphenated versions, the
whitelists and stablelists names with the leading numeric part of the
release segment. -/
def kabi_tarname_options (version : String) : List String :=
  let base :=
    ["kernel-abi-stablelists-" ++ pyDropSuffix version 4 ++ ".tar.bz2",
     "kernel-abi-whitelists-" ++ pyDropSuffix version 4 ++ ".tar.bz2",
     "kernel-abi-whitelists.tar.bz2"]
  if version.data.contains '-' then
    let relMajor :=
      String.mk ((pySplitOnChar '.' ((pySplitOnChar '-' version.data).getD 1 [])).getD 0 [])
    base ++
      ["kernel-abi-whitelists-" ++ relMajor ++ ".tar.bz2",
       "kernel-abi-stablelists-" ++ relMajor ++ ".tar.bz2"]
  else base

/-- Inner directory chosen from the lines of `kernel.spec`: the value of
the first `KABI_CURRENT=` line, stripped; `kabi-current` when no such line
exists. -/
def kabiDirFromSpec (lines : List String) : String :=
  match lines.find? (fun l => "KABI_CURRENT=".data.isPrefixOf l.data) with
  | some l => pyStrip (String.mk (l.data.drop 13))
  | none => "kabi-current"

/-- Model of `get_kabi_file` run in working directory `cwd` with
environment `fs`. -/
def get_kabi_file (cwd version : String) (kabi_filenames : List String)
    (fs : KabiFS) : KabiOutcome :=
  match kabi_filenames.find? (fun f => fs.files.contains f) with
  | some f => ⟨Except.ok (some f), false, false⟩
  | none =>
    match (kabi_tarname_options version).find? (fun t => fs.files.contains t) with
    | none => ⟨Except.ok none, false, false⟩
    | some _ =>
      if fs.tarOk then
        let kdirE : Except KabiErr String :=
          if fs.kabiCurrentDir then Except.ok "kabi-current"
          else
            match fs.kernelSpec with
            | some lines => Except.ok (kabiDirFromSpec lines)
            | none => Except.error KabiErr.specMissing
        match kdirE with
        | Except.error e => ⟨Except.error e, true, false⟩
        | Except.ok kdir =>
          match kabi_filenames.find? (fun f => fs.innerFiles.contains (kdir ++ "/" ++ f)) with
          | some f => ⟨Except.ok (some (cwd ++ "/" ++ f)), true, true⟩
          | none => ⟨Except.error KabiErr.unboundLocal, true, true⟩
      else ⟨Except.error KabiErr.tarFailed, true, false⟩

/-! ## Orchestrated strategy choice

`get_kernel_source` tries `StrictVersion(version)` and the upstream
download; on ValueError it resolves the Brew hostname and downloads from
Brew, and the surrounding `except socket_error` clause — `socket.error`
being an alias of OSError in Python 3 — catches an OSError raised anywhere
inside it, both the DNS failure of `gethostbyname` and an OSError raised
by the Brew download itself (urllib network errors derive from OSError),
falling back to the CentOS download. Errors of other classes propagate. -/

/-- The three download procedures the dispatcher can invoke. -/
inductive SrcStep where
  | upstreamStep
  | brewStep
  | centosStep
deriving DecidableEq, Repr

/-- Outcome of the Brew download attempt once DNS resolution succeeded:
completion, an exception deriving from OSError, or an exception of any
other class. -/
inductive BrewOutcome where
  | ok
  | osError
  | otherError
deriving DecidableEq, Repr

/-- Network and tool environment of one `get_kernel_source` run. -/
structure GetSrcEnv where
  /-- Whether `gethostbyname` of the Brew host succeeds. -/
  dnsOk : Bool
  /-- Outcome of the Brew download attempt, when one is made. -/
  brewOutcome : BrewOutcome
deriving DecidableEq, Repr

/-- The download procedures `get_kernel_source` invokes, in order:
upstream when `StrictVersion` parses the version; otherwise Brew when DNS
resolution succeeds, followed by CentOS only when the Brew attempt raised
an OSError; otherwise CentOS alone. -/
def get_kernel_source_attempts (version : String) (env : GetSrcEnv) : List SrcStep :=
  match strictVersionParse version with
  | some _ => [SrcStep.upstreamStep]
  | none =>
    if env.dnsOk then
      match env.brewOutcome with
      | BrewOutcome.osError => [SrcStep.brewStep, SrcStep.centosStep]
      | _ => [SrcStep.brewStep]
    else [SrcStep.centosStep]

/-! ## Helper lemmas -/

/-- Rebuilding a string from its character list is the identity. -/
theorem mk_data (s : String) : String.mk s.data = s := by
  cases s
  rfl

/-- In an association list with distinct keys, `lookup` finds the value of
any member pair. -/
theorem lookup_of_mem {l : List (String × String)} {v r : String}
    (hnd : (l.map Prod.fst).Nodup) (h : (v, r) ∈ l) : l.lookup v = some r := by
  induction l with
  | nil => cases h
  | cons p t ih =>
    rcases List.mem_cons.mp h with h1 | h1
    · subst h1
      simp [List.lookup]
    · have hv : v ≠ p.1 := by
        intro hvp
        have : p.1 ∈ t.map Prod.fst := by
          exact List.mem_map.mpr ⟨(v, r), h1, by simp [hvp]⟩
        exact (List.nodup_cons.mp (by simpa using hnd)).1 this
      have hnd2 : (t.map Prod.fst).Nodup := (List.nodup_cons.mp (by simpa using hnd)).2
      simp [List.lookup, beq_eq_false_iff_ne.mpr hv]
      exact ih hnd2 h1

/-- `lookup` in an association list fails exactly for the keys that do not
occur in it. -/
theorem lookup_eq_none_iff {l : List (String × String)} {v : String} :
    l.lookup v = none ↔ v ∉ l.map Prod.fst := by
  induction l with
  | nil => simp [List.lookup]
  | cons p t ih =>
    by_cases hv : v = p.1
    · subst hv
      simp [List.lookup]
    · simp [List.lookup, beq_eq_false_iff_ne.mpr hv, ih, hv]

/-- Splitting a list free of the separator yields that list alone. -/
theorem pySplitOnChar_eq_single {c : Char} :
    ∀ {l : List Char}, c ∉ l → pySplitOnChar c l = [l] := by
  intro l
  induction l with
  | nil => intro _; rfl
  | cons x xs ih =>
    intro h
    have hx : ¬(x = c) := fun he => h (he ▸ List.mem_cons_self x xs)
    have hxs : c ∉ xs := fun hm => h (List.mem_cons_of_mem x hm)
    simp [pySplitOnChar, hx, ih hxs]

/-- Splitting at a single separator occurrence yields the two surrounding
pieces. -/
theorem pySplitOnChar_pair {c : Char} :
    ∀ {a b : List Char}, c ∉ a → c ∉ b →
      pySplitOnChar c (a ++ c :: b) = [a, b] := by
  intro a
  induction a with
  | nil =>
    intro b _ hb
    simp [pySplitOnChar, pySplitOnChar_eq_single hb]
  | cons x xs ih =>
    intro b ha hb
    have hx : ¬(x = c) := fun he => ha (he ▸ List.mem_cons_self x xs)
    have hxs : c ∉ xs := fun hm => ha (List.mem_cons_of_mem x hm)
    simp only [List.cons_append, pySplitOnChar, hx, if_false, ite_false]
    rw [List.append_eq, ih hxs hb]

/-- A list all of whose elements satisfy `p` is its own `takeWhile`. -/
theorem takeWhile_of_all {p : Char → Bool} :
    ∀ {l : List Char}, l.all p = true → l.takeWhile p = l := by
  intro l
  induction l with
  | nil => intro _; rfl
  | cons x xs ih =>
    intro h
    simp only [List.all_cons, Bool.and_eq_true] at h
    simp [List.takeWhile_cons, h.1, ih h.2]

/-- A list all of whose elements satisfy `p` has an empty `dropWhile`. -/
theorem dropWhile_of_all {p : Char → Bool} :
    ∀ {l : List Char}, l.all p = true → l.dropWhile p = [] := by
  intro l
  induction l with
  | nil => intro _; rfl
  | cons x xs ih =>
    intro h
    simp only [List.all_cons, Bool.and_eq_true] at h
    simp [List.dropWhile_cons, h.1, ih h.2]

/-- Against the boundary version 3.0, the strict-version order degenerates
to comparison of the major number with 3. -/
theorem svLt_sv30 (A B C : Nat) :
    svLt ⟨(A, B, C), none⟩ sv30 = decide (A < 3) := by
  by_cases h : ((A, B, C) : Nat × Nat × Nat) = ((3, 0, 0) : Nat × Nat × Nat)
  · obtain ⟨hA, hB, hC⟩ : A = 3 ∧ B = 0 ∧ C = 0 := by
      simpa [Prod.ext_iff] using h
    subst hA; subst hB; subst hC
    decide
  · have hb : decide (B < 0) = false := by simp
    have hc : decide (C < 0) = false := by simp
    simp only [svLt, sv30, tupLt, ne_eq, h, not_false_eq_true, if_true, hb, hc]
    simp

/-! ## Claim theorems -/

/-- Claim C1 (amended): strategy resolution is an ordered first-match rule —
Upstream when the version parses as a strict dotted numeric version,
otherwise Brew when DNS resolution of the Brew hostname succeeds, otherwise
CentOS — except that the fall back from Brew to CentOS is not limited to
DNS-resolution time: because the except clause catches OSError raised
anywhere in the try block, an OSError raised by the Brew download itself
also triggers the CentOS download after the Brew download has started. -/
theorem c1_strategy_order (v : String) (env : GetSrcEnv) :
    ((strictVersionParse v).isSome = true →
      get_kernel_source_attempts v env = [SrcStep.upstreamStep]) ∧
    (strictVersionParse v = none → env.dnsOk = false →
      get_kernel_source_attempts v env = [SrcStep.centosStep]) ∧
    (strictVersionParse v = none → env.dnsOk = true →
      env.brewOutcome ≠ BrewOutcome.osError →
      get_kernel_source_attempts v env = [SrcStep.brewStep]) ∧
    (strictVersionParse v = none → env.dnsOk = true →
      env.brewOutcome = BrewOutcome.osError →
      get_kernel_source_attempts v env = [SrcStep.brewStep, SrcStep.centosStep]) := by
  obtain ⟨dns, brew⟩ := env
  cases hp : strictVersionParse v <;> cases dns <;> cases brew <;>
    simp [get_kernel_source_attempts, hp]

/-- Claim C1 witness: the four dispatch outcomes at concrete inputs. -/
theorem c1_strategy_order_witness :
    get_kernel_source_attempts "5.10.4" ⟨true, BrewOutcome.ok⟩ =
      [SrcStep.upstreamStep] ∧
    get_kernel_source_attempts "3.10.0-957.el7" ⟨false, BrewOutcome.ok⟩ =
      [SrcStep.centosStep] ∧
    get_kernel_source_attempts "3.10.0-957.el7" ⟨true, BrewOutcome.ok⟩ =
      [SrcStep.brewStep] ∧
    get_kernel_source_attempts "3.10.0-957.el7" ⟨true, BrewOutcome.osError⟩ =
      [SrcStep.brewStep, SrcStep.centosStep] :=
  ⟨(c1_strategy_order "5.10.4" ⟨true, BrewOutcome.ok⟩).1 (by decide),
   (c1_strategy_order "3.10.0-957.el7" ⟨false, BrewOutcome.ok⟩).2.1 (by decide) rfl,
   (c1_strategy_order "3.10.0-957.el7" ⟨true, BrewOutcome.ok⟩).2.2.1
     (by decide) rfl (by decide),
   (c1_strategy_order "3.10.0-957.el7" ⟨true, BrewOutcome.osError⟩).2.2.2
     (by decide) rfl rfl⟩

/-- Claim C1 counterexample: in a run where DNS resolution of the Brew
hostname succeeds but the Brew download raises an OSError, the CentOS
(public mirror) download is also invoked — the fallback happens after the
Brew download started, contradicting that the strategy choice is final at
DNS-resolution time. -/
theorem c1_strategy_order_counterexample :
    (⟨true, BrewOutcome.osError⟩ : GetSrcEnv).dnsOk = true ∧
    get_kernel_source_attempts "3.10.0-957.el7" ⟨true, BrewOutcome.osError⟩ =
      [SrcStep.brewStep, SrcStep.centosStep] :=
  ⟨rfl, rfl⟩

/-- Claim C3 (confirmed): for every version present in the CentOS map, the
vault URL is the mapped release identifier followed by BaseOS exactly when
the version ends in .el8 (else os), then /Source/SPackages/ and the SRPM
name kernel-<version>.src.rpm. -/
theorem c3_centos_url (v r : String) (h : (v, r) ∈ centos_kernel_map) :
    get_kernel_tar_from_centos_url v =
      some ("kernel-" ++ v ++ ".src.rpm",
        "http://vault.centos.org/" ++ r ++
          (if pyEndsWith v ".el8" then "/BaseOS" else "/os") ++
          "/Source/SPackages/" ++ ("kernel-" ++ v ++ ".src.rpm")) := by
  have hnd : (centos_kernel_map.map Prod.fst).Nodup := by decide
  have hl := lookup_of_mem hnd h
  unfold get_kernel_tar_from_centos_url
  rw [hl]

/-- Claim C3 witness: the concrete URLs for one el7 and one el8 entry. -/
theorem c3_centos_url_witness :
    get_kernel_tar_from_centos_url "3.10.0-957.el7" =
      some ("kernel-3.10.0-957.el7.src.rpm",
        "http://vault.centos.org/7.6.1810/os/Source/SPackages/kernel-3.10.0-957.el7.src.rpm") ∧
    get_kernel_tar_from_centos_url "4.18.0-80.el8" =
      some ("kernel-4.18.0-80.el8.src.rpm",
        "http://vault.centos.org/8.0.1905/BaseOS/Source/SPackages/kernel-4.18.0-80.el8.src.rpm") :=
  ⟨(c3_centos_url "3.10.0-957.el7" "7.6.1810" (by decide)).trans (by rfl),
   (c3_centos_url "4.18.0-80.el8" "8.0.1905" (by decide)).trans (by rfl)⟩

/-- Claim C4 (confirmed): the CentOS path fails (KeyError from the static
map, fatal since no handler catches it) exactly for the versions absent
from the map; versions present in the map resolve. -/
theorem c4_centos_resolution_error (v : String) :
    get_kernel_tar_from_centos_url v = none ↔
      v ∉ centos_kernel_map.map Prod.fst := by
  unfold get_kernel_tar_from_centos_url
  cases hl : centos_kernel_map.lookup v with
  | none =>
    simpa using lookup_eq_none_iff.mp hl
  | some rel =>
    constructor
    · intro hc
      exact absurd hc (by simp)
    · intro hm
      have h0 : centos_kernel_map.lookup v = none := lookup_eq_none_iff.mpr hm
      rw [hl] at h0
      cases h0

/-- Claim C5 (confirmed): when the extraction stages deposited one of the
two tarball names, get_kernel_from_srpm returns a name that exists on disk,
and it is one of the two. -/
theorem c5_srpm_tarball (version : String) (isFile : String → Bool)
    (h : isFile ("linux-" ++ version ++ ".tar.xz") = true ∨
         isFile ("linux-" ++ version ++ ".tar.bz2") = true) :
    isFile (get_kernel_from_srpm_tarname version isFile) = true ∧
    (get_kernel_from_srpm_tarname version isFile =
        "linux-" ++ version ++ ".tar.xz" ∨
     get_kernel_from_srpm_tarname version isFile =
        "linux-" ++ version ++ ".tar.bz2") := by
  unfold get_kernel_from_srpm_tarname
  cases hx : isFile ("linux-" ++ version ++ ".tar.xz") with
  | true => simp [hx]
  | false =>
    rcases h with h | h
    · rw [hx] at h
      cases h
    · simp [hx, h]

/-- Claim C5 witness: with only the bz2 tarball on disk, the returned name
is the one that exists. -/
theorem c5_srpm_tarball_witness :
    ((fun s => s == "linux-5.10.4.tar.bz2") ("linux-" ++ "5.10.4" ++ ".tar.xz") = true ∨
     (fun s => s == "linux-5.10.4.tar.bz2") ("linux-" ++ "5.10.4" ++ ".tar.bz2") = true) ∧
    (fun s => s == "linux-5.10.4.tar.bz2")
      (get_kernel_from_srpm_tarname "5.10.4" (fun s => s == "linux-5.10.4.tar.bz2")) = true :=
  ⟨Or.inr (by decide),
   (c5_srpm_tarball "5.10.4" (fun s => s == "linux-5.10.4.tar.bz2")
     (Or.inr (by decide))).1⟩

/-- Claim C6 (confirmed): extract_tar removes the archive file exactly on
success — when the external tar call succeeds the archive is deleted and
the absolute path of the suffix-stripped directory is returned; when the
call fails the run aborts with the archive left in place. -/
theorem c6_extract_tar_removal (cwd tarname : String) (tarOk : Bool) :
    (tarOk = true →
      (extract_tar cwd tarname tarOk).removedArchive = true ∧
      (extract_tar cwd tarname tarOk).result =
        Except.ok (abspath cwd
          (if pyEndsWith tarname ".tar.xz" then pyDropSuffix tarname 7
           else pyDropSuffix tarname 8))) ∧
    (tarOk = false →
      (extract_tar cwd tarname tarOk).removedArchive = false ∧
      (extract_tar cwd tarname tarOk).result = Except.error ()) := by
  unfold extract_tar
  cases tarOk <;> cases hs : pyEndsWith tarname ".tar.xz" <;> simp [hs]

/-- Claim C6 witness: both outcomes at a concrete xz archive. -/
theorem c6_extract_tar_removal_witness :
    (extract_tar "/tmp/w" "linux-5.10.4.tar.xz" true).removedArchive = true ∧
    (extract_tar "/tmp/w" "linux-5.10.4.tar.xz" true).result =
      Except.ok "/tmp/w/linux-5.10.4" ∧
    (extract_tar "/tmp/w" "linux-5.10.4.tar.xz" false).removedArchive = false ∧
    (extract_tar "/tmp/w" "linux-5.10.4.tar.xz" false).result = Except.error () :=
  ⟨((c6_extract_tar_removal "/tmp/w" "linux-5.10.4.tar.xz" true).1 rfl).1,
   (((c6_extract_tar_removal "/tmp/w" "linux-5.10.4.tar.xz" true).1 rfl).2).trans
     (by rfl),
   ((c6_extract_tar_removal "/tmp/w" "linux-5.10.4.tar.xz" false).2 rfl).1,
   ((c6_extract_tar_removal "/tmp/w" "linux-5.10.4.tar.xz" false).2 rfl).2⟩

/-- Claim C7 (code bug): with no companion archive on disk the function
returns None as the claim states; but when a companion archive exists and
no candidate filename is found inside it, the final return statement reads
the never-assigned local kabi_file, so the run raises UnboundLocalError
instead of returning None. -/
theorem c7_kabi_lookup_outcomes :
    get_kabi_file "/tmp/work" "4.18.0-80.el8"
        ["kabi_whitelist_x86_64", "kabi_stablelist_x86_64"]
        ⟨[], true, true, none, []⟩ =
      ⟨Except.ok none, false, false⟩ ∧
    get_kabi_file "/tmp/work" "4.18.0-80.el8"
        ["kabi_whitelist_x86_64", "kabi_stablelist_x86_64"]
        ⟨["kernel-abi-whitelists.tar.bz2"], true, true, none, []⟩ =
      ⟨Except.error KabiErr.unboundLocal, true, true⟩ :=
  ⟨rfl, rfl⟩

/-- Claim C8 (amended): the kabi temporary directory is removed exactly
when the run reaches the copy phase — the external tar call succeeded and
the inner directory lookup did not raise (kabi-current exists or
kernel.spec is readable) — including when no candidate filename is found
inside the archive; when the tar call or the kernel.spec read fails, the
directory is left behind. -/
theorem c8_kabi_cleanup (cwd version : String) (kabi_filenames : List String)
    (fs : KabiFS) :
    (get_kabi_file cwd version kabi_filenames fs).tmpCleaned = true ↔
      ((get_kabi_file cwd version kabi_filenames fs).tmpCreated = true ∧
       fs.tarOk = true ∧
       (fs.kabiCurrentDir = true ∨ fs.kernelSpec ≠ none)) := by
  obtain ⟨files, tarOk, kcd, spec, inner⟩ := fs
  unfold get_kabi_file
  cases h1 : kabi_filenames.find? (fun f => files.contains f) with
  | some f => simp
  | none =>
    cases h2 : (kabi_tarname_options version).find? (fun t => files.contains t) with
    | none => simp
    | some t =>
      cases tarOk with
      | false => simp
      | true =>
        cases kcd with
        | true =>
          simp
          split <;> rfl
        | false =>
          cases spec with
          | none => simp
          | some lines =>
            simp
            split <;> rfl

/-- Claim C8 counterexample: when the external tar call fails, the created
kabi temporary directory is not removed, so the cleanup is not guaranteed
regardless of outcome. -/
theorem c8_kabi_cleanup_counterexample :
    (get_kabi_file "/tmp/work" "4.18.0-80.el8" ["kabi_whitelist_x86_64"]
        ⟨["kernel-abi-whitelists.tar.bz2"], false, true, none, []⟩).tmpCreated = true ∧
    (get_kabi_file "/tmp/work" "4.18.0-80.el8" ["kabi_whitelist_x86_64"]
        ⟨["kernel-abi-whitelists.tar.bz2"], false, true, none, []⟩).tmpCleaned = false :=
  ⟨rfl, rfl⟩

/-- Claim C9 (confirmed): for a version consisting of a hyphen-free
upstream part, a hyphen and a hyphen-free release part, the Brew URL is the
package root followed by upstream-ver, release, src and the SRPM name
kernel-<version>.src.rpm. -/
theorem c9_brew_url (uv rel : String) (h1 : '-' ∉ uv.data) (h2 : '-' ∉ rel.data) :
    get_kernel_tar_from_brew_url (uv ++ "-" ++ rel) =
      some ("kernel-" ++ (uv ++ "-" ++ rel) ++ ".src.rpm",
        "http://download.eng.bos.redhat.com/brewroot/packages/kernel/" ++ uv ++ "/" ++
          rel ++ "/src/" ++ ("kernel-" ++ (uv ++ "-" ++ rel) ++ ".src.rpm")) := by
  have hd : (uv ++ "-" ++ rel).data = uv.data ++ '-' :: rel.data := by
    rw [String.data_append, String.data_append, List.append_assoc]
    rfl
  unfold get_kernel_tar_from_brew_url
  rw [hd, pySplitOnChar_pair h1 h2]

/-- Claim C9 witness: the concrete Brew URL of an el7 version. -/
theorem c9_brew_url_witness :
    get_kernel_tar_from_brew_url ("3.10.0" ++ "-" ++ "957.el7") =
      some ("kernel-3.10.0-957.el7.src.rpm",
        "http://download.eng.bos.redhat.com/brewroot/packages/kernel/3.10.0/957.el7/src/kernel-3.10.0-957.el7.src.rpm") :=
  (c9_brew_url "3.10.0" "957.el7" (by decide) (by decide)).trans (by rfl)

/-- Claim C10 (confirmed): extract_tar validates no suffix — any archive
name not ending in .tar.xz is handled as bzip2, with the directory name
computed by dropping exactly the last eight characters whatever they are. -/
theorem c10_extract_tar_no_validation (cwd tarname : String) (tarOk : Bool)
    (h : pyEndsWith tarname ".tar.xz" = false) :
    (extract_tar cwd tarname tarOk).tarOpts = "-xjf" ∧
    (tarOk = true →
      (extract_tar cwd tarname tarOk).result =
        Except.ok (abspath cwd (pyDropSuffix tarname 8))) := by
  unfold extract_tar
  cases tarOk <;> simp [h]

/-- Claim C10 witness: a .tar.gz archive is treated as bzip2 and its last
eight characters are stripped, yielding a mangled directory name. -/
theorem c10_extract_tar_no_validation_witness :
    pyEndsWith "linux-5.10.4.tar.gz" ".tar.xz" = false ∧
    (extract_tar "/tmp/w" "linux-5.10.4.tar.gz" true).tarOpts = "-xjf" ∧
    (extract_tar "/tmp/w" "linux-5.10.4.tar.gz" true).result =
      Except.ok "/tmp/w/linux-5.10." :=
  ⟨by decide,
   (c10_extract_tar_no_validation "/tmp/w" "linux-5.10.4.tar.gz" true (by decide)).1,
   ((c10_extract_tar_no_validation "/tmp/w" "linux-5.10.4.tar.gz" true
       (by decide)).2 rfl).trans (by rfl)⟩

/-- Claim C2 counterexample: the era directory segment is built from raw
character slices of the version string, not from the parsed numbers. For
2.10.0 (below 3.0, two-digit minor) the code emits v2.1/ instead of the
claimed v2.10/, and for 10.0.0 (two-digit major) it emits v1.x/ instead of
the claimed v10.x/. -/
theorem c2_upstream_url_counterexample :
    get_kernel_tar_from_upstream_url "2.10.0" =
      some ("linux-2.10.0.tar.xz",
        "https://www.kernel.org/pub/linux/kernel/v2.1/linux-2.10.0.tar.xz") ∧
    get_kernel_tar_from_upstream_url "2.10.0" ≠
      some ("linux-2.10.0.tar.xz",
        "https://www.kernel.org/pub/linux/kernel/v2.10/linux-2.10.0.tar.xz") ∧
    get_kernel_tar_from_upstream_url "10.0.0" =
      some ("linux-10.0.0.tar.xz",
        "https://www.kernel.org/pub/linux/kernel/v1.x/linux-10.0.0.tar.xz") ∧
    get_kernel_tar_from_upstream_url "10.0.0" ≠
      some ("linux-10.0.0.tar.xz",
        "https://www.kernel.org/pub/linux/kernel/v10.x/linux-10.0.0.tar.xz") :=
  ⟨by rfl, by decide, by rfl, by decide⟩

/-- Claim C2 (amended): for versions of the shape d.d.N with single-digit
major and minor and a nonempty numeric patch, the upstream URL is the
kernel.org base followed by v<major>.<minor>/ when the major number is
below 3 and v<major>.x/ otherwise, followed by linux-<version>.tar.xz; in
general the code slices the first three (resp. first) characters of the
version string, which coincides with the claimed segments exactly in this
single-digit regime. -/
theorem c2_upstream_url (da db : Char) (cl : List Char)
    (hda : da.isDigit = true) (hdb : db.isDigit = true)
    (hne : cl ≠ []) (hcd : cl.all (·.isDigit) = true) :
    get_kernel_tar_from_upstream_url (String.mk (da :: '.' :: db :: '.' :: cl)) =
      some ("linux-" ++ String.mk (da :: '.' :: db :: '.' :: cl) ++ ".tar.xz",
        (if digitsToNat [da] < 3 then
          "https://www.kernel.org/pub/linux/kernel/" ++ "v" ++
            String.mk [da, '.', db] ++ "/"
         else
          "https://www.kernel.org/pub/linux/kernel/" ++ "v" ++
            String.mk [da] ++ ".x/") ++
        ("linux-" ++ String.mk (da :: '.' :: db :: '.' :: cl) ++ ".tar.xz")) := by
  have hdot : ('.' : Char).isDigit = false := by decide
  have htw : cl.takeWhile (·.isDigit) = cl := takeWhile_of_all hcd
  have hdw : cl.dropWhile (·.isDigit) = [] := dropWhile_of_all hcd
  have hie : cl.isEmpty = false := by
    cases cl with
    | nil => exact absurd rfl hne
    | cons c cs => rfl
  have hparse : strictVersionParse (String.mk (da :: '.' :: db :: '.' :: cl)) =
      some ⟨(digitsToNat [da], digitsToNat [db], digitsToNat cl), none⟩ := by
    simp [strictVersionParse, parsePatchPre, parsePrerelease,
      List.span_eq_take_drop, List.takeWhile_cons, List.dropWhile_cons,
      hda, hdb, hdot, htw, hdw, hie]
  unfold get_kernel_tar_from_upstream_url
  simp only [hparse]
  rw [svLt_sv30]
  simp only [decide_eq_true_eq]
  rfl

/-- Claim C2 witness: one version of each era in the single-digit regime. -/
theorem c2_upstream_url_witness :
    get_kernel_tar_from_upstream_url "2.6.32" =
      some ("linux-2.6.32.tar.xz",
        "https://www.kernel.org/pub/linux/kernel/v2.6/linux-2.6.32.tar.xz") ∧
    get_kernel_tar_from_upstream_url "5.1.0" =
      some ("linux-5.1.0.tar.xz",
        "https://www.kernel.org/pub/linux/kernel/v5.x/linux-5.1.0.tar.xz") :=
  ⟨(c2_upstream_url '2' '6' ['3', '2']
      (by decide) (by decide) (by decide) (by decide)).trans (by rfl),
   (c2_upstream_url '5' '1' ['0']
      (by decide) (by decide) (by decide) (by decide)).trans (by rfl)⟩

end RhelKernelGet
